import Mathlib

/-!
# Verification of the interactive spatial workspace synchronizer

Shallow embedding, in Lean 4, of the parts of the `geospatial-mvp`
repository that the specification's testable properties talk about:

* the GCP (ground control point) collection and the `canGeoreference`
  derived flag (`georefComponent.tsx`);
* the CSV-coordinate attachment rows and the `allCoordsSet` flag
  (`georefComponent.tsx`, `csvComponent.tsx`);
* the layer/feature render reconciliation pass (`mapComponent.tsx`,
  `updateLayers`);
* the feature-selection click handler (`mapComponent.tsx`, `handleClick`);
* the persistence actions `CreateLayer`, `DeleteLayer`, `UploadFile`
  (`layerActions.ts`), the drag-reorder `handleDragEnd`
  (`toolBarComponent.tsx`), the CSV preview and process endpoints
  (`app/api/csv/...`), and the shapefile/GeoJSON upload endpoint.

JavaScript `number | null` fields are modelled as `Option ℚ`, nullable
object references as `Option`, and thrown exceptions as explicit result
constructors.  Remote calls (Supabase RPCs) are modelled by explicit
oracles saying which call fails, and the database by a record of the
rows the calls would have inserted.
-/

namespace GeoMvp

/-- Numeric coordinates (JS `number`) are modelled as rationals. -/
abbrev Coord := ℚ

/-! ## Ground control points (`types/gcpTypes.ts`, `GCPType`) -/

/-- `GCPType = { id; px; py; lon; lat }`, each coordinate field
independently nullable (`number | null`). -/
structure GCP where
  id : Nat
  px : Option Coord
  py : Option Coord
  lon : Option Coord
  lat : Option Coord
deriving Repr, DecidableEq

/-- `EMPTY_GCPS` (`dashboard/page.tsx`): the 4-entry all-null template,
ids `1..4`. -/
def EMPTY_GCPS : List GCP :=
  [⟨1, none, none, none, none⟩, ⟨2, none, none, none, none⟩,
   ⟨3, none, none, none, none⟩, ⟨4, none, none, none, none⟩]

/-- One GCP has all four coordinate halves set
(`g.px !== null && g.py !== null && g.lon !== null && g.lat !== null`). -/
def gcpComplete (g : GCP) : Bool :=
  g.px.isSome && g.py.isSome && g.lon.isSome && g.lat.isSome

/-- `canGeoreference` (`georefComponent.tsx`):
`gcps.every(g => g.px !== null && g.py !== null && g.lon !== null && g.lat !== null)`. -/
def canGeoreference (gcps : List GCP) : Bool :=
  gcps.all gcpComplete

/-- The solve request body built by `handleGeoreference`:
`{ signedUrl: imageUrl, gcps, projectId: projectId.id }`. -/
structure GeorefRequest where
  signedUrl : String
  gcps : List GCP
  projectId : String
deriving Repr, DecidableEq

/-- `handleGeoreference` (`georefComponent.tsx`): the guard
`if (!canGeoreference || !imageUrl || !projectId) return;` means a solve
request is issued exactly when the flag is set and both the image URL and
the project are present; `none` models an early return with no request. -/
def handleGeoreference (gcps : List GCP) (imageUrl : Option String)
    (projectId : Option String) : Option GeorefRequest :=
  if canGeoreference gcps then
    match imageUrl, projectId with
    | some u, some p => some ⟨u, gcps, p⟩
    | _, _ => none
  else none

/-! ## GCP mutations -/

/-- `updateImagePoint` (`georefComponent.tsx`):
`setGcps(prev => prev.map((g, i) => (i === index ? { ...g, px, py } : g)))`. -/
def updateImagePoint (gcps : List GCP) (index : Nat)
    (px py : Option Coord) : List GCP :=
  gcps.mapIdx fun i g => if i = index then { g with px := px, py := py } else g

/-- The armed-GCP map click (`mapComponent.tsx`, `handleClick` /
`handleGcpMapClick`): `gcpIndex = gcps.findIndex(g => g.id === selectedGcp.id)`,
no-op when `-1`, otherwise `newGcps[gcpIndex] = { ...gcp, lon, lat }`. -/
def setMapPoint (gcps : List GCP) (selectedId : Nat)
    (lon lat : Coord) : List GCP :=
  match gcps.findIdx? (fun g => g.id == selectedId) with
  | none => gcps
  | some i =>
    match gcps[i]? with
    | none => gcps
    | some g => gcps.set i { g with lon := some lon, lat := some lat }

/-! ## CSV rows (`types/gcpTypes.ts`, `CSVRow`) -/

/-- `CSVRow`: arbitrary string columns plus the optional synthetic
`__coord: { lon, lat }` attached by a map click. -/
structure CSVRow where
  cells : List (String × String)
  __coord : Option (Coord × Coord)
deriving Repr, DecidableEq

/-- `allCoordsSet` (`georefComponent.tsx` / `csvComponent.tsx`):
`csvRows.every(r => r.__coord)` — an object is truthy iff present. -/
def allCoordsSet (rows : List CSVRow) : Bool :=
  rows.all fun r => r.__coord.isSome

/-- The save request posted to `/api/csv/process` by `handleSave`. -/
structure SaveRequest where
  projectId : String
  rows : List CSVRow
deriving Repr, DecidableEq

/-- The Save button (`renderCSVStep`) is `disabled={!allCoordsSet}`, so
the click path into `handleSave` exists only when `allCoordsSet`;
`handleSave` itself additionally aborts when no project is selected
(`if (!projectId) return;`).  `none` models no request being issued. -/
def clickSave (rows : List CSVRow) (projectId : Option String) :
    Option SaveRequest :=
  if allCoordsSet rows then
    match projectId with
    | some p => some ⟨p, rows⟩
    | none => none
  else none

end GeoMvp

namespace GeoMvp

/-! ## Claim C1: Georeference enabled iff all 4 GCPs complete -/

/-- C1: the "Georeference" action is enabled iff all 4 GCPs have non-null
`px, py, lon, lat`: for every state of the 4-entry GCP collection,
`canGeoreference` is true exactly when every entry has all four fields
non-null, and `handleGeoreference` issues a request only when the flag
is true. -/
theorem c1_georeference_enabled_iff (gcps : List GCP)
    (h4 : gcps.length = 4) :
    (canGeoreference gcps = true ↔
      ∀ g ∈ gcps, g.px ≠ none ∧ g.py ≠ none ∧ g.lon ≠ none ∧ g.lat ≠ none) ∧
    (∀ u p r, handleGeoreference gcps u p = some r →
      canGeoreference gcps = true) := by
  constructor
  · simp only [canGeoreference, gcpComplete, List.all_eq_true,
      Bool.and_eq_true, Option.isSome_iff_ne_none, and_assoc]
  · intro u p r h
    by_contra hc
    rw [Bool.not_eq_true] at hc
    simp [handleGeoreference, hc] at h

/-- A concrete completely-filled 4-GCP state, used as the C1 witness input. -/
def gcpsAllSet : List GCP :=
  [⟨1, some 100, some 50, some (-79), some 43⟩,
   ⟨2, some 1, some 2, some 3, some 4⟩,
   ⟨3, some 1, some 2, some 3, some 4⟩,
   ⟨4, some 1, some 2, some 3, some 4⟩]

/-- Witness for C1 at a concrete complete 4-GCP state. -/
theorem c1_georeference_enabled_iff_witness :
    (canGeoreference gcpsAllSet = true ↔
      ∀ g ∈ gcpsAllSet,
        g.px ≠ none ∧ g.py ≠ none ∧ g.lon ≠ none ∧ g.lat ≠ none) ∧
    (∀ u p r, handleGeoreference gcpsAllSet u p = some r →
      canGeoreference gcpsAllSet = true) :=
  c1_georeference_enabled_iff gcpsAllSet (by decide)

/-! ## Claim C5: Save CSV enabled iff every row has a coord -/

/-- C5: the "Save CSV" action is enabled iff every CSVRow has a non-null
coord: `allCoordsSet` is true exactly when each row's `__coord` is set,
and a save request is issued only when that flag is true. -/
theorem c5_save_enabled_iff (rows : List CSVRow) (hne : rows ≠ []) :
    (allCoordsSet rows = true ↔ ∀ r ∈ rows, r.__coord ≠ none) ∧
    (∀ p q, clickSave rows p = some q → allCoordsSet rows = true) := by
  constructor
  · simp [allCoordsSet, List.all_eq_true, Option.isSome_iff_ne_none]
  · intro p q h
    by_contra hc
    rw [Bool.not_eq_true] at hc
    simp [clickSave, hc] at h

/-- A concrete one-row CSV state with a coord attached, the C5 witness input. -/
def csvRowsOne : List CSVRow :=
  [⟨[("name", "park")], some (-80, 45)⟩]

/-- Witness for C5 at a concrete one-row state with a coord attached. -/
theorem c5_save_enabled_iff_witness :
    (allCoordsSet csvRowsOne = true ↔
      ∀ r ∈ csvRowsOne, r.__coord ≠ none) ∧
    (∀ p q, clickSave csvRowsOne p = some q →
      allCoordsSet csvRowsOne = true) :=
  c5_save_enabled_iff csvRowsOne (by decide)

/-! ## Claim C7: the GCP collection always has exactly 4 entries -/

/-- C7: the GCP collection always has exactly 4 entries.  `EMPTY_GCPS` is
the 4-entry all-null template; the image-point patch (`updateImagePoint`,
an index-guarded `map`), the map-point patch (`setMapPoint`, an id lookup
followed by an in-place `set`), and the bulk reset (`EMPTY_GCPS` again)
all preserve the entry count, and an image-point patch addressed to an
index outside `0..3` leaves the collection unchanged. -/
theorem c7_gcps_always_four (gcps : List GCP) (index sid : Nat)
    (px py : Option Coord) (lon lat : Coord) (h4 : gcps.length = 4) :
    EMPTY_GCPS.length = 4 ∧
    (updateImagePoint gcps index px py).length = 4 ∧
    (setMapPoint gcps sid lon lat).length = 4 ∧
    (4 ≤ index → updateImagePoint gcps index px py = gcps) := by
  refine ⟨rfl, ?_, ?_, ?_⟩
  · simp [updateImagePoint, h4]
  · unfold setMapPoint
    split
    · exact h4
    · split
      · exact h4
      · simp [h4]
  · intro hix
    rw [updateImagePoint, List.mapIdx_eq_iff]
    intro i
    cases hi : gcps[i]? with
    | none => rfl
    | some g =>
      have hlt : i < gcps.length := List.getElem?_eq_some_iff.mp hi |>.1
      have : i ≠ index := by omega
      simp [this]

/-- Witness for C7: the empty template itself, patched at the
out-of-range index 7. -/
theorem c7_gcps_always_four_witness :
    EMPTY_GCPS.length = 4 ∧
    (updateImagePoint EMPTY_GCPS 7 (some 10) (some 20)).length = 4 ∧
    (setMapPoint EMPTY_GCPS 2 (-79) 43).length = 4 ∧
    (4 ≤ 7 → updateImagePoint EMPTY_GCPS 7 (some 10) (some 20) = EMPTY_GCPS) :=
  c7_gcps_always_four EMPTY_GCPS 7 2 (some 10) (some 20) (-79) 43 (by decide)

/-! ## CSV preview endpoint (`app/api/csv/preview/route.ts`) -/

/-- One parsed CSV record: the `csv-parse` `columns: true` output, a
string-keyed object modelled as an association list. -/
structure CsvRecord where
  cells : List (String × String)
deriving Repr, DecidableEq

/-- `Object.keys(record)`. -/
def CsvRecord.keys (r : CsvRecord) : List String :=
  r.cells.map (·.1)

/-- `row[col]`: `undefined` (modelled `none`) when the column is absent. -/
def CsvRecord.get? (r : CsvRecord) (col : String) : Option String :=
  (r.cells.find? (fun kv => kv.1 == col)).map (·.2)

/-- The CSV preview `POST` (`app/api/csv/preview/route.ts`):
`headers = Object.keys(records[0] ?? {})`,
`previewRows = records.slice(0, 10)`; returns `(headers, previewRows)`. -/
def csvPreviewPOST (records : List CsvRecord) :
    List String × List CsvRecord :=
  (((records.head?).map CsvRecord.keys).getD [], records.take 10)

/-! ## Claim C9: preview returns at most the first 10 records -/

/-- C9: the CSV preview endpoint returns at most the first 10 parsed
records as `previewRows` — exactly `records.slice(0, 10)` — with headers
taken from the first record, or empty when the file has no records. -/
theorem c9_preview_first_ten (records : List CsvRecord) :
    (csvPreviewPOST records).2 = records.take 10 ∧
    (csvPreviewPOST records).2.length ≤ 10 ∧
    (csvPreviewPOST records).1 =
      (match records with
       | [] => []
       | r :: _ => r.keys) := by
  refine ⟨rfl, ?_, ?_⟩
  · simpa [csvPreviewPOST] using List.length_take_le 10 records
  · cases records <;> rfl

/-! ## JS `parseFloat` (decimal fragment)

`parseFloat` skips leading whitespace, reads an optional sign, integer
digits, an optional fraction and an optional exponent, ignores trailing
garbage, and yields `NaN` (modelled `none`) when no digit was read.
The special values `Infinity`/`-Infinity` are modelled as `none`; both
NaN and infinities fail the `[-90,90]`/`[-180,180]` range filter below,
so the filter's outcome is unaffected. -/

/-- Whitespace skipped by `parseFloat`. -/
def isJsSpace (c : Char) : Bool :=
  c == ' ' || c == '\t' || c == '\n' || c == '\r'

/-- Read a maximal digit run: accumulated value, number of digits, rest. -/
def readDigits : Nat → Nat → List Char → Nat × Nat × List Char
  | acc, n, [] => (acc, n, [])
  | acc, n, c :: cs =>
    if c.isDigit then readDigits (acc * 10 + (c.toNat - 48)) (n + 1) cs
    else (acc, n, c :: cs)

/-- JS `parseFloat`, restricted to the decimal-literal fragment. -/
def parseFloat (s : String) : Option ℚ :=
  let cs := s.data.dropWhile isJsSpace
  let signAndRest : ℚ × List Char :=
    match cs with
    | '-' :: rest => (-1, rest)
    | '+' :: rest => (1, rest)
    | _ => (1, cs)
  let (ip, ni, cs2) := readDigits 0 0 signAndRest.2
  let fracAndRest : Nat × Nat × List Char :=
    match cs2 with
    | '.' :: rest => readDigits 0 0 rest
    | _ => (0, 0, cs2)
  let (fp, nf, cs3) := fracAndRest
  if ni = 0 ∧ nf = 0 then none
  else
    let mant : ℚ := (ip : ℚ) + (fp : ℚ) / (10 : ℚ) ^ nf
    let expVal : ℤ :=
      match cs3 with
      | 'e' :: rest | 'E' :: rest =>
        let esignAndRest : ℤ × List Char :=
          match rest with
          | '-' :: r => (-1, r)
          | '+' :: r => (1, r)
          | _ => (1, rest)
        let (ev, ne, _) := readDigits 0 0 esignAndRest.2
        if ne = 0 then 0 else esignAndRest.1 * ev
      | _ => 0
    some (signAndRest.1 * mant * (10 : ℚ) ^ expVal)

/-! ## CSV process endpoint (`app/api/csv/process/route.ts`) -/

/-- One point accepted by the csv process filter:
`{ lat, lon, properties }`. -/
structure PointRec where
  lat : ℚ
  lon : ℚ
  props : List (String × String)
deriving Repr, DecidableEq

/-- The body of `records.map(row => ...)` in the process `POST`:
`lat = parseFloat(row[latCol])`, `lon = parseFloat(row[lonCol])`;
`null` when either is NaN or `lat ∉ [-90,90]` or `lon ∉ [-180,180]`,
otherwise the point with `properties` restricted to `includedCols`.
A missing column gives `parseFloat(undefined) = NaN`, hence `none`. -/
def rowPoint (latCol lonCol : String) (includedCols : List String)
    (row : CsvRecord) : Option PointRec :=
  match (row.get? latCol).bind parseFloat,
        (row.get? lonCol).bind parseFloat with
  | some lat, some lon =>
    if lat < -90 ∨ 90 < lat ∨ lon < -180 ∨ 180 < lon then none
    else some ⟨lat, lon, row.cells.filter (fun kv => includedCols.contains kv.1)⟩
  | _, _ => none

/-- The persistence collaborator's state, as the csv process endpoint
sees it: created layer ids and inserted `(layer_id, point)` rows. -/
structure CsvDb where
  layers : List String
  points : List (String × PointRec)
deriving Repr, DecidableEq

/-- How a request to the process endpoint ends. -/
inductive ProcessOutcome
  /-- A 4xx JSON error returned before any persistence call. -/
  | errorResp (msg : String)
  /-- A thrown error caught by the outer handler (500 response). -/
  | thrown (msg : String)
  /-- Success: layer created and features inserted. -/
  | ok (layerId : String)
deriving Repr, DecidableEq

/-- The csv process `POST` (`app/api/csv/process/route.ts`): validates
`project_id`/`csv_text`, parses (modelled at the parsed-records level),
rejects an empty record set, rejects missing `latCol`/`lonCol` columns,
filters rows through `rowPoint`, rejects an empty point set, then calls
`CreateLayer` and the `insert_features_from_csv` RPC.  `rpcFails` is the
oracle for the RPC outcome; note that on RPC failure the just-created
layer stays in the database (no delete is issued). -/
def csvProcessPOST (records : List CsvRecord) (latCol lonCol : String)
    (includedCols : List String) (projectPresent : Bool)
    (newLayerId : String) (rpcFails : Bool) (db : CsvDb) :
    ProcessOutcome × CsvDb :=
  if !projectPresent then (.errorResp "Missing project_id or CSV text", db)
  else
    match records with
    | [] => (.errorResp "CSV is empty", db)
    | r0 :: _ =>
      if ([latCol, lonCol].filter fun c => !(r0.keys.contains c)) ≠ [] then
        (.errorResp "Missing columns", db)
      else
        let points := records.filterMap (rowPoint latCol lonCol includedCols)
        if points = [] then (.errorResp "No valid points found", db)
        else
          let db1 : CsvDb := { db with layers := db.layers ++ [newLayerId] }
          if rpcFails then (.thrown "insert_features_from_csv failed", db1)
          else
            (.ok newLayerId,
             { db1 with
                points := db1.points ++ points.map fun p => (newLayerId, p) })

/-- The first row of the spec's C4 scenario: `{lat:"91", lon:"0"}`. -/
def rowLat91 : CsvRecord := ⟨[("lat", "91"), ("lon", "0")]⟩

/-- The second row of the spec's C4 scenario: `{lat:"45", lon:"-80"}`. -/
def rowLat45 : CsvRecord := ⟨[("lat", "45"), ("lon", "-80")]⟩

/-! ## Claim C4: csv process drops exactly the invalid rows -/

/-- C4: the csv process step drops, without failing the whole batch,
exactly those rows whose latitude is non-numeric or outside `[-90,90]`
or whose longitude is non-numeric or outside `[-180,180]`: a row
survives the filter iff both coordinates parse and are in range; a batch
with at least one surviving row succeeds, inserting exactly the
surviving rows; and on the spec's scenario
`[{lat:"91",lon:"0"}, {lat:"45",lon:"-80"}]` the first row is discarded
and a Layer with exactly one point feature `(45, -80)` is created. -/
theorem c4_csv_drops_out_of_range (latCol lonCol : String)
    (cols : List String) (records : List CsvRecord) (lid : String)
    (db : CsvDb) (r0 : CsvRecord) (rest : List CsvRecord)
    (hrec : records = r0 :: rest)
    (hlat : latCol ∈ r0.keys) (hlon : lonCol ∈ r0.keys)
    (hvalid : ∃ r ∈ records, (rowPoint latCol lonCol cols r).isSome) :
    (∀ row : CsvRecord, (rowPoint latCol lonCol cols row).isSome = true ↔
      (∃ la, (row.get? latCol).bind parseFloat = some la ∧
        -90 ≤ la ∧ la ≤ 90) ∧
      (∃ lo, (row.get? lonCol).bind parseFloat = some lo ∧
        -180 ≤ lo ∧ lo ≤ 180)) ∧
    (csvProcessPOST records latCol lonCol cols true lid false db).1 =
      .ok lid ∧
    (csvProcessPOST records latCol lonCol cols true lid false db).2.points =
      db.points ++
        (records.filterMap (rowPoint latCol lonCol cols)).map
          (fun p => (lid, p)) ∧
    csvProcessPOST [rowLat91, rowLat45] "lat" "lon" [] true lid false
        ⟨[], []⟩ =
      (.ok lid, ⟨[lid], [(lid, (⟨45, -80, []⟩ : PointRec))]⟩) := by
  have keep : ∀ row : CsvRecord,
      (rowPoint latCol lonCol cols row).isSome = true ↔
      (∃ la, (row.get? latCol).bind parseFloat = some la ∧
        -90 ≤ la ∧ la ≤ 90) ∧
      (∃ lo, (row.get? lonCol).bind parseFloat = some lo ∧
        -180 ≤ lo ∧ lo ≤ 180) := by
    intro row
    rcases hla : (row.get? latCol).bind parseFloat with _ | la <;>
      rcases hlo : (row.get? lonCol).bind parseFloat with _ | lo <;>
      simp only [rowPoint, hla, hlo] <;> simp <;> tauto
  subst hrec
  have hmiss : ([latCol, lonCol].filter fun c => !(r0.keys.contains c)) = [] := by
    simp [List.filter, hlat, hlon]
  have hpts : (r0 :: rest).filterMap (rowPoint latCol lonCol cols) ≠ [] := by
    obtain ⟨r, hr, hsome⟩ := hvalid
    rw [Ne, List.filterMap_eq_nil_iff]
    intro hall
    rw [hall r hr] at hsome
    simp at hsome
  refine ⟨keep, ?_, ?_, ?_⟩
  · simp [csvProcessPOST, hmiss, hpts, hlat, hlon]
  · simp [csvProcessPOST, hmiss, hpts, hlat, hlon]
  · simp [csvProcessPOST, rowPoint, rowLat91, rowLat45, CsvRecord.get?,
      CsvRecord.keys, parseFloat, readDigits, isJsSpace, List.dropWhile,
      List.find?, List.filterMap, List.filter]
    norm_num

/-- Witness for C4 at the spec's scenario input. -/
theorem c4_csv_drops_out_of_range_witness :
    (∀ row : CsvRecord, (rowPoint "lat" "lon" [] row).isSome = true ↔
      (∃ la, (row.get? "lat").bind parseFloat = some la ∧
        -90 ≤ la ∧ la ≤ 90) ∧
      (∃ lo, (row.get? "lon").bind parseFloat = some lo ∧
        -180 ≤ lo ∧ lo ≤ 180)) ∧
    (csvProcessPOST [rowLat91, rowLat45] "lat" "lon" [] true "L1" false
        ⟨[], []⟩).1 = .ok "L1" ∧
    (csvProcessPOST [rowLat91, rowLat45] "lat" "lon" [] true "L1" false
        ⟨[], []⟩).2.points =
      (⟨[], []⟩ : CsvDb).points ++
        (([rowLat91, rowLat45]).filterMap (rowPoint "lat" "lon" [])).map
          (fun p => ("L1", p)) ∧
    csvProcessPOST [rowLat91, rowLat45] "lat" "lon" [] true "L1" false
        ⟨[], []⟩ =
      (.ok "L1", ⟨["L1"], [("L1", (⟨45, -80, []⟩ : PointRec))]⟩) :=
  c4_csv_drops_out_of_range "lat" "lon" [] [rowLat91, rowLat45] "L1"
    ⟨[], []⟩ rowLat91 [rowLat45] rfl (by decide) (by decide)
    ⟨rowLat45, by simp, by
      simp [rowPoint, rowLat45, CsvRecord.get?, parseFloat, readDigits,
        isJsSpace, List.dropWhile, List.find?]
      norm_num⟩

/-! ## Claim C10: an all-invalid batch fails atomically -/

/-- C10: if every row of a submitted CSV is dropped by the coordinate
filter (or the CSV has no rows at all), the process endpoint returns an
error response before any persistence call — the final database equals
the initial one, so no Layer and no Features are created. -/
theorem c10_invalid_batch_no_persistence (records : List CsvRecord)
    (latCol lonCol : String) (cols : List String) (pp rpcFails : Bool)
    (lid : String) (db : CsvDb)
    (h : ∀ r ∈ records, rowPoint latCol lonCol cols r = none) :
    (∃ msg, (csvProcessPOST records latCol lonCol cols pp lid rpcFails
        db).1 = .errorResp msg) ∧
    (csvProcessPOST records latCol lonCol cols pp lid rpcFails db).2 =
      db := by
  cases pp with
  | false => exact ⟨⟨_, rfl⟩, rfl⟩
  | true =>
    cases records with
    | nil => exact ⟨⟨_, rfl⟩, rfl⟩
    | cons r0 rest =>
      have hpts : (r0 :: rest).filterMap (rowPoint latCol lonCol cols) = [] :=
        List.filterMap_eq_nil_iff.mpr h
      obtain ⟨msg, hmsg⟩ : ∃ msg,
          csvProcessPOST (r0 :: rest) latCol lonCol cols true lid rpcFails
            db = (.errorResp msg, db) := by
        by_cases hl1 : latCol ∈ r0.keys <;> by_cases hl2 : lonCol ∈ r0.keys
        · exact ⟨"No valid points found",
            by simp [csvProcessPOST, hpts, hl1, hl2]⟩
        · exact ⟨"Missing columns",
            by simp [csvProcessPOST, hpts, hl1, hl2]⟩
        · exact ⟨"Missing columns",
            by simp [csvProcessPOST, hpts, hl1, hl2]⟩
        · exact ⟨"Missing columns",
            by simp [csvProcessPOST, hpts, hl1, hl2]⟩
      exact ⟨⟨msg, by rw [hmsg]⟩, by rw [hmsg]⟩

/-- Witness for C10: the one-row batch `[{lat:"91", lon:"0"}]`, whose
single row is out of range. -/
theorem c10_invalid_batch_no_persistence_witness :
    (∃ msg, (csvProcessPOST [rowLat91] "lat" "lon" [] true "L1" false
        ⟨[], []⟩).1 = .errorResp msg) ∧
    (csvProcessPOST [rowLat91] "lat" "lon" [] true "L1" false ⟨[], []⟩).2 =
      (⟨[], []⟩ : CsvDb) :=
  c10_invalid_batch_no_persistence [rowLat91] "lat" "lon" [] true false
    "L1" ⟨[], []⟩ (by
      intro r hr
      simp only [List.mem_singleton] at hr
      subst hr
      simp [rowPoint, rowLat91, CsvRecord.get?, parseFloat, readDigits,
        isJsSpace, List.dropWhile, List.find?]
      norm_num)

/-! ## Layer rows and ordering (`layerActions.ts`, `toolBarComponent.tsx`) -/

/-- A `layers` table row, projected to the fields the ordering claims
use. -/
structure LayerRec where
  id : String
  order_index : Nat
deriving Repr, DecidableEq

/-- `CreateLayer` (`layerActions.ts`): fetches the project's layer rows,
sets `lastLayerOrderIndex = data.length`, and inserts the new layer with
`order_index = lastLayerOrderIndex + 1`. -/
def CreateLayer (layers : List LayerRec) (newId : String) : List LayerRec :=
  layers ++ [⟨newId, layers.length + 1⟩]

/-- `DeleteLayer` (`layerActions.ts`): deletes the row with the given id. -/
def DeleteLayer (layers : List LayerRec) (lid : String) : List LayerRec :=
  layers.filter fun l => l.id != lid

/-- dnd-kit's `arrayMove`: remove the element at `fromIdx` and reinsert
it at `toIdx`. -/
def arrayMove (l : List LayerRec) (fromIdx toIdx : Nat) : List LayerRec :=
  match l[fromIdx]? with
  | none => l
  | some a => (l.eraseIdx fromIdx).insertIdx toIdx a

/-- `handleDragEnd` (`toolBarComponent.tsx`): under the guard
`over && active.id !== over.id`, finds both indices, applies `arrayMove`,
then reassigns `order_index: index + 1` positionally over the whole
list.  The `findIndex` calls always succeed in the UI flow (both ids
come from the rendered layer list); the `none` fallbacks keep the model
total. -/
def handleDragEnd (layers : List LayerRec) (activeId : String)
    (dropTarget : Option String) : List LayerRec :=
  match dropTarget with
  | none => layers
  | some overId =>
    if activeId ≠ overId then
      match layers.findIdx? (fun l => l.id == activeId),
            layers.findIdx? (fun l => l.id == overId) with
      | some oldIndex, some newIndex =>
        (arrayMove layers oldIndex newIndex).mapIdx
          fun index l => { l with order_index := index + 1 }
      | _, _ => layers
    else layers

/-- Positional reassignment `index + s` makes the `order_index` column
exactly `range' s n`. -/
theorem map_orderIdx_mapIdx (s : Nat) (l : List LayerRec) :
    ((l.mapIdx fun i x => { x with order_index := i + s }).map
      (·.order_index)) = List.range' s l.length := by
  induction l generalizing s with
  | nil => simp
  | cons a t ih =>
    rw [List.mapIdx_cons, List.map_cons, List.length_cons, List.range'_succ]
    refine congrArg₂ List.cons (by simp) ?_
    have harg : (fun i (x : LayerRec) =>
        { x with order_index := i + 1 + s }) =
        (fun i (x : LayerRec) => { x with order_index := i + (s + 1) }) := by
      funext i x
      simp [Nat.add_assoc, Nat.add_comm 1 s]
    rw [harg, ih (s + 1)]

/-! ## Claim C8: order_index unique and contiguous -/

/-- C8 counterexample: starting from an empty project, create layers
"a", "b", "c" (order 1, 2, 3), delete "a", then create "d":
`CreateLayer` assigns `order_index = count + 1 = 3`, which collides with
layer "c" — the resulting rows do not have pairwise-distinct
`order_index`. -/
theorem c8_counterexample :
    ¬ List.Pairwise (fun x y => x.order_index ≠ y.order_index)
      (CreateLayer (DeleteLayer
        (CreateLayer (CreateLayer (CreateLayer [] "a") "b") "c") "a")
        "d") := by
  decide

/-- C8 (amended): a drag-reorder reassigns `order_index` `1..n` over the
layers in their new order (so the values are unique and contiguous), and
`CreateLayer` assigns `order_index = count + 1`, which is distinct from
every existing layer's `order_index` provided every existing
`order_index` is at most the layer count — e.g. after creates and
reorders only; interleaved deletions can break this precondition (see
the counterexample). -/
theorem c8_order_index_amended (layers : List LayerRec)
    (activeId overId newId : String) (i j : Nat)
    (hi : layers.findIdx? (fun l => l.id == activeId) = some i)
    (hj : layers.findIdx? (fun l => l.id == overId) = some j)
    (hne : activeId ≠ overId)
    (hbound : ∀ l ∈ layers, l.order_index ≤ layers.length) :
    ((handleDragEnd layers activeId (some overId)).map (·.order_index) =
      List.range' 1 layers.length) ∧
    (CreateLayer layers newId =
      layers ++ [⟨newId, layers.length + 1⟩]) ∧
    (∀ l ∈ layers, l.order_index ≠ layers.length + 1) := by
  have hilt : i < layers.length := by
    have := List.findIdx?_eq_some_iff_getElem.mp hi
    exact this.1
  have hjlt : j < layers.length := by
    have := List.findIdx?_eq_some_iff_getElem.mp hj
    exact this.1
  refine ⟨?_, rfl, ?_⟩
  · have hlen : (arrayMove layers i j).length = layers.length := by
      unfold arrayMove
      rcases hget : layers[i]? with _ | a
      · rfl
      · have he : (layers.eraseIdx i).length = layers.length - 1 :=
          List.length_eraseIdx_of_lt hilt
        have hjle : j ≤ (layers.eraseIdx i).length := by omega
        rw [List.length_insertIdx _ _ hjle, he]
        omega
    rw [handleDragEnd]
    simp only [if_pos hne, hi, hj]
    rw [map_orderIdx_mapIdx 1, hlen]
  · intro l hl
    have := hbound l hl
    omega

/-- Witness for C8 at a concrete three-layer state, dragging "a" onto
"c". -/
theorem c8_order_index_amended_witness :
    ((handleDragEnd [⟨"a", 1⟩, ⟨"b", 2⟩, ⟨"c", 3⟩] "a" (some "c")).map
      (·.order_index) =
      List.range' 1 ([(⟨"a", 1⟩ : LayerRec), ⟨"b", 2⟩, ⟨"c", 3⟩]).length) ∧
    (CreateLayer [⟨"a", 1⟩, ⟨"b", 2⟩, ⟨"c", 3⟩] "d" =
      [⟨"a", 1⟩, ⟨"b", 2⟩, ⟨"c", 3⟩] ++
        [⟨"d", ([(⟨"a", 1⟩ : LayerRec), ⟨"b", 2⟩, ⟨"c", 3⟩]).length + 1⟩]) ∧
    (∀ l ∈ [(⟨"a", 1⟩ : LayerRec), ⟨"b", 2⟩, ⟨"c", 3⟩],
      l.order_index ≠ ([(⟨"a", 1⟩ : LayerRec), ⟨"b", 2⟩, ⟨"c", 3⟩]).length + 1) :=
  c8_order_index_amended [⟨"a", 1⟩, ⟨"b", 2⟩, ⟨"c", 3⟩] "a" "c" "d" 0 2
    (by decide) (by decide) (by decide) (by decide)

/-! ## Bulk feature upload (`layerActions.ts` `UploadFile`, and the
shapefile/GeoJSON upload route) -/

/-- An opaque GeoJSON feature payload (the upload paths never inspect
it, they only slice the array into chunks). -/
structure GeoFeature where
  payload : String
deriving Repr, DecidableEq

/-- The persistence state as the bulk upload paths see it: created layer
ids, inserted `(layer_id, feature)` rows, and whether the features geom
index is present. -/
structure FeatureDb where
  layers : List String
  features : List (String × GeoFeature)
  geomIndexPresent : Bool
deriving Repr, DecidableEq

/-- How a bulk upload call ends. -/
inductive UploadRes
  /-- `return null` / 400 before creating anything: empty feature list. -/
  | noFeatures
  /-- all chunks inserted. -/
  | ok (layerId : String)
  /-- an `insert_features_bulk` chunk returned an error. -/
  | failed
deriving Repr, DecidableEq

/-- The chunked insert loop shared by both upload paths: insert chunk
`j` via the `insert_features_bulk` RPC; the oracle `chunkFails j` says
that RPC call returns an error, which stops the loop. -/
def insertChunksLoop (lid : String) (chunkFails : Nat → Bool) :
    List (List GeoFeature) → Nat → FeatureDb → Bool × FeatureDb
  | [], _, db => (true, db)
  | c :: cs, j, db =>
    if chunkFails j then (false, db)
    else insertChunksLoop lid chunkFails cs (j + 1)
      { db with features := db.features ++ c.map fun f => (lid, f) }

/-- `UploadFile` (`layerActions.ts`): returns `null` on an empty feature
list; otherwise creates the layer, drops the geom index, inserts the
features in chunks of 500, and recreates the index in `finally`.  A
failing chunk makes the loop `throw` the error: the index is recreated,
but the just-created layer is NOT deleted. -/
def UploadFile (feats : List GeoFeature) (lid : String)
    (chunkFails : Nat → Bool) (db : FeatureDb) : UploadRes × FeatureDb :=
  if feats.length = 0 then (.noFeatures, db)
  else
    let db1 : FeatureDb := { db with layers := db.layers ++ [lid] }
    let db2 : FeatureDb := { db1 with geomIndexPresent := false }
    let res := insertChunksLoop lid chunkFails (feats.toChunks 500) 0 db2
    if res.1 then (.ok lid, { res.2 with geomIndexPresent := true })
    else (.failed, { res.2 with geomIndexPresent := true })

/-- The shapefile/GeoJSON upload route `POST`: same shape as
`UploadFile` but with chunks of 100 and, on a failing chunk,
`DeleteLayer({ layer_id: layer.id })` before returning the 400 error
(the `finally` still recreates the index). -/
def uploadRoutePOST (feats : List GeoFeature) (lid : String)
    (chunkFails : Nat → Bool) (db : FeatureDb) : UploadRes × FeatureDb :=
  if feats.length = 0 then (.noFeatures, db)
  else
    let db1 : FeatureDb := { db with layers := db.layers ++ [lid] }
    let db2 : FeatureDb := { db1 with geomIndexPresent := false }
    let res := insertChunksLoop lid chunkFails (feats.toChunks 100) 0 db2
    if res.1 then (.ok lid, { res.2 with geomIndexPresent := true })
    else
      (.failed,
       { res.2 with
          layers := res.2.layers.filter fun x => x != lid,
          geomIndexPresent := true })

/-- The insert loop only appends feature rows; it never touches the
layer list. -/
theorem insertChunksLoop_layers (lid : String) (chunkFails : Nat → Bool) :
    ∀ (cs : List (List GeoFeature)) (j : Nat) (db : FeatureDb),
      (insertChunksLoop lid chunkFails cs j db).2.layers = db.layers := by
  intro cs
  induction cs with
  | nil => intro j db; rfl
  | cons c rest ih =>
    intro j db
    rw [insertChunksLoop]
    by_cases hf : chunkFails j
    · rw [if_pos hf]
    · rw [if_neg hf, ih]

/-! ## Claim C2: bulk persistence atomicity -/

/-- C2 counterexample: `UploadFile` with a single feature whose (only)
chunk insert fails throws, and the just-created layer "L1" is still in
the database — an orphaned, feature-less layer remains, contradicting
"the just-created Layer is deleted". -/
theorem c2_counterexample :
    (UploadFile [⟨"f1"⟩] "L1" (fun _ => true) ⟨[], [], true⟩).1 =
      .failed ∧
    "L1" ∈ (UploadFile [⟨"f1"⟩] "L1" (fun _ => true)
      ⟨[], [], true⟩).2.layers ∧
    (UploadFile [⟨"f1"⟩] "L1" (fun _ => true) ⟨[], [], true⟩).2.features =
      [] := by
  decide

/-- C2 (amended): only the shapefile/GeoJSON upload route is atomic in
the claimed sense — when a chunk insert fails it deletes the
just-created Layer, so the layer is absent from the final state.  The
`UploadFile` action and the CSV process endpoint instead propagate the
insert failure without deleting the Layer, leaving the just-created
Layer in place. -/
theorem c2_bulk_atomicity_amended (feats : List GeoFeature) (lid : String)
    (chunkFails : Nat → Bool) (db : FeatureDb)
    (records : List CsvRecord) (latCol lonCol : String)
    (cols : List String) (cdb : CsvDb) :
    ((uploadRoutePOST feats lid chunkFails db).1 = .failed →
      lid ∉ (uploadRoutePOST feats lid chunkFails db).2.layers) ∧
    ((UploadFile feats lid chunkFails db).1 = .failed →
      lid ∈ (UploadFile feats lid chunkFails db).2.layers) ∧
    (∀ msg, (csvProcessPOST records latCol lonCol cols true lid true
        cdb).1 = .thrown msg →
      lid ∈ (csvProcessPOST records latCol lonCol cols true lid true
        cdb).2.layers) := by
  refine ⟨?_, ?_, ?_⟩
  · intro hfail
    unfold uploadRoutePOST at hfail ⊢
    by_cases h0 : feats.length = 0
    · rw [if_pos h0] at hfail
      exact absurd hfail (by simp)
    · rw [if_neg h0] at hfail ⊢
      by_cases hloop : (insertChunksLoop lid chunkFails
          (feats.toChunks 100) 0
          ⟨db.layers ++ [lid], db.features, false⟩).1
      · rw [if_pos hloop] at hfail
        exact absurd hfail (by simp)
      · rw [if_neg hloop] at hfail ⊢
        intro hmem
        rw [List.mem_filter] at hmem
        simp at hmem
  · intro hfail
    unfold UploadFile at hfail ⊢
    by_cases h0 : feats.length = 0
    · rw [if_pos h0] at hfail
      exact absurd hfail (by simp)
    · rw [if_neg h0] at hfail ⊢
      by_cases hloop : (insertChunksLoop lid chunkFails
          (feats.toChunks 500) 0
          ⟨db.layers ++ [lid], db.features, false⟩).1
      · rw [if_pos hloop] at hfail
        exact absurd hfail (by simp)
      · rw [if_neg hloop]
        show lid ∈ (insertChunksLoop lid chunkFails
          (feats.toChunks 500) 0
          ⟨db.layers ++ [lid], db.features, false⟩).2.layers
        rw [insertChunksLoop_layers]
        simp
  · intro msg hthrown
    unfold csvProcessPOST at hthrown ⊢
    cases records with
    | nil => exact absurd hthrown (by simp)
    | cons r0 rest =>
      by_cases hm :
          ¬([latCol, lonCol].filter fun c => !(r0.keys.contains c)) = []
      · simp only [Bool.not_true, ite_false, if_pos hm] at hthrown
        exact absurd hthrown (by simp)
      · simp only [Bool.not_true, ite_false, if_neg hm] at hthrown ⊢
        by_cases hp : ((r0 :: rest).filterMap
            (rowPoint latCol lonCol cols)) = []
        · rw [if_pos hp] at hthrown
          exact absurd hthrown (by simp)
        · rw [if_neg hp] at hthrown ⊢
          simp at hthrown ⊢

/-- Witness for C2 (amended): concrete single-feature uploads whose only
chunk insert fails; the route deletes "L1", `UploadFile` keeps it. -/
theorem c2_bulk_atomicity_amended_witness :
    "L1" ∉ (uploadRoutePOST [⟨"f1"⟩] "L1" (fun _ => true)
      ⟨[], [], true⟩).2.layers ∧
    "L1" ∈ (UploadFile [⟨"f1"⟩] "L1" (fun _ => true)
      ⟨[], [], true⟩).2.layers ∧
    "L1" ∈ (csvProcessPOST [rowLat45] "lat" "lon" [] true "L1" true
      ⟨[], []⟩).2.layers :=
  ⟨(c2_bulk_atomicity_amended [⟨"f1"⟩] "L1" (fun _ => true) ⟨[], [], true⟩
      [rowLat45] "lat" "lon" [] ⟨[], []⟩).1 (by decide),
   (c2_bulk_atomicity_amended [⟨"f1"⟩] "L1" (fun _ => true) ⟨[], [], true⟩
      [rowLat45] "lat" "lon" [] ⟨[], []⟩).2.1 (by decide),
   (c2_bulk_atomicity_amended [⟨"f1"⟩] "L1" (fun _ => true) ⟨[], [], true⟩
      [rowLat45] "lat" "lon" [] ⟨[], []⟩).2.2
     "insert_features_from_csv failed" (by
        simp [csvProcessPOST, rowPoint, rowLat45, CsvRecord.get?,
          CsvRecord.keys, parseFloat, readDigits, isJsSpace,
          List.dropWhile, List.find?, List.filterMap, List.filter]
        norm_num)⟩

/-! ## Render reconciliation (`mapComponent.tsx`, `updateLayers`) -/

/-- GeoJSON geometry types, as `getRenderType` classifies them;
`geometryCollection` stands for any unrecognized type. -/
inductive GeomType
  | point | multiPoint | lineString | multiLineString
  | polygon | multiPolygon | geometryCollection
deriving Repr, DecidableEq

/-- The render type derived for a layer. -/
inductive RenderType
  | point | line | polygon
deriving Repr, DecidableEq

/-- A store feature, projected to what the render pass and the click
handler inspect: id, geometry type, visibility. -/
structure StoreFeature where
  id : String
  geom : GeomType
  is_visible : Bool
deriving Repr, DecidableEq

/-- `FeatureLayerType`: a store layer with its features. -/
structure FeatureLayer where
  layerId : String
  features : List StoreFeature
deriving Repr, DecidableEq

/-- `toFeatureCollection` keeps only `is_visible` features; only their
geometry types matter to `getRenderType`. -/
def visibleGeoms (fl : FeatureLayer) : List GeomType :=
  (fl.features.filter (·.is_visible)).map (·.geom)

/-- `getRenderType`: scan the collection, first recognized geometry type
wins; unrecognized types are skipped; `null` when none is recognized. -/
def getRenderType : List GeomType → Option RenderType
  | [] => none
  | t :: ts =>
    match t with
    | .point => some .point
    | .multiPoint => some .point
    | .lineString => some .line
    | .multiLineString => some .line
    | .polygon => some .polygon
    | .multiPolygon => some .polygon
    | .geometryCollection => getRenderType ts

/-- The rendering surface's primitive namespace: the managed style-layer
ids and source ids currently present. -/
structure MapSurface where
  layerIds : List String
  sourceIds : List String
deriving Repr, DecidableEq

/-- The wanted set (`currentLayerIds`): `layer-{id}` and
`layer-{id}-outline` for EVERY store layer, visible features or not. -/
def wantedLayerIds (fls : List FeatureLayer) : List String :=
  fls.flatMap fun fl =>
    ["layer-" ++ fl.layerId, "layer-" ++ fl.layerId ++ "-outline"]

/-- `s.startsWith p`, computed on the underlying character lists (the
same predicate, in a form the kernel can evaluate). -/
def strStartsWith (s p : String) : Bool :=
  p.data.isPrefixOf s.data

/-- The removal sweep of `updateLayers`: drop every managed style layer
(`id.startsWith("layer-")`) not in the wanted set, and the source
`source-` ++ `id.replace("layer-", "")` of each dropped layer. -/
def removalPass (wanted : List String) (m : MapSurface) : MapSurface :=
  let removed := m.layerIds.filter fun l =>
    strStartsWith l "layer-" && !(wanted.contains l)
  { layerIds := m.layerIds.filter fun l =>
      !(strStartsWith l "layer-" && !(wanted.contains l)),
    sourceIds := m.sourceIds.filter fun s =>
      !((removed.map fun l => "source-" ++ l.drop 6).contains s) }

/-- Source upsert: `setData` when the source exists (no namespace
change), `addSource` when it does not. -/
def upsertSource (m : MapSurface) (sourceId : String) : MapSurface :=
  if m.sourceIds.contains sourceId then m
  else { m with sourceIds := m.sourceIds ++ [sourceId] }

/-- `upsertSource` never touches the style-layer ids. -/
theorem upsertSource_layerIds (m : MapSurface) (sourceId : String) :
    (upsertSource m sourceId).layerIds = m.layerIds := by
  unfold upsertSource
  split <;> rfl

/-- The per-layer add/update step of `updateLayers`: skip entirely when
the visible features have no recognized geometry type (`!renderType`);
otherwise upsert the source and, when the style layer is absent, add
it — plus the outline layer for polygons.  When the style layer exists
only paint properties are updated, which does not change the primitive
id sets. -/
def addLayerPrims (m : MapSurface) (fl : FeatureLayer) : MapSurface :=
  match getRenderType (visibleGeoms fl) with
  | none => m
  | some rt =>
    let sourceId := "source-" ++ fl.layerId
    let layerId := "layer-" ++ fl.layerId
    let m1 := upsertSource m sourceId
    if m1.layerIds.contains layerId then m1
    else
      match rt with
      | .point => { m1 with layerIds := m1.layerIds ++ [layerId] }
      | .line => { m1 with layerIds := m1.layerIds ++ [layerId] }
      | .polygon =>
        { m1 with layerIds :=
            m1.layerIds ++ [layerId, layerId ++ "-outline"] }

/-- `updateLayers` (`mapComponent.tsx`): the removal sweep against the
wanted set, then the per-layer add/update pass over all store layers. -/
def updateLayers (fls : List FeatureLayer) (m : MapSurface) : MapSurface :=
  fls.foldl addLayerPrims (removalPass (wantedLayerIds fls) m)

/-! Facts about the reconciliation pass. -/

/-- The add/update step never removes a style layer. -/
theorem addLayerPrims_layerIds_mono (m : MapSurface) (fl : FeatureLayer)
    (x : String) (hx : x ∈ m.layerIds) :
    x ∈ (addLayerPrims m fl).layerIds := by
  unfold addLayerPrims
  rcases getRenderType (visibleGeoms fl) with _ | rt
  · exact hx
  · dsimp only
    split
    · rw [upsertSource_layerIds]
      exact hx
    · cases rt <;> dsimp only <;> rw [upsertSource_layerIds] <;>
        exact List.mem_append_left _ hx

/-- The add/update pass never removes a style layer. -/
theorem foldl_addLayerPrims_layerIds_mono (fls : List FeatureLayer) :
    ∀ (m : MapSurface) (x : String), x ∈ m.layerIds →
      x ∈ (fls.foldl addLayerPrims m).layerIds := by
  induction fls with
  | nil => intro m x hx; exact hx
  | cons fl rest ih =>
    intro m x hx
    exact ih (addLayerPrims m fl) x (addLayerPrims_layerIds_mono m fl x hx)

/-- Inversion: a style layer present after one add/update step was
already present, or belongs to a layer whose visible features have a
recognized geometry type. -/
theorem addLayerPrims_layerIds_inv (m : MapSurface) (fl : FeatureLayer)
    (x : String) (hx : x ∈ (addLayerPrims m fl).layerIds) :
    x ∈ m.layerIds ∨
      (getRenderType (visibleGeoms fl) ≠ none ∧
        (x = "layer-" ++ fl.layerId ∨
         x = "layer-" ++ fl.layerId ++ "-outline")) := by
  unfold addLayerPrims at hx
  rcases hrt : getRenderType (visibleGeoms fl) with _ | rt
  · rw [hrt] at hx
    exact Or.inl hx
  · rw [hrt] at hx
    dsimp only at hx
    rw [upsertSource_layerIds] at hx
    by_cases hc : m.layerIds.contains ("layer-" ++ fl.layerId)
    · rw [if_pos hc] at hx
      rw [upsertSource_layerIds] at hx
      exact Or.inl hx
    · rw [if_neg hc] at hx
      cases rt <;> dsimp only at hx <;>
        simp only [List.mem_append, List.mem_singleton, List.mem_cons,
          List.not_mem_nil, or_false] at hx <;>
        rcases hx with hx | hx
      · exact Or.inl hx
      · exact Or.inr ⟨by simp [hrt], Or.inl hx⟩
      · exact Or.inl hx
      · exact Or.inr ⟨by simp [hrt], Or.inl hx⟩
      · exact Or.inl hx
      · rcases hx with hx | hx
        · exact Or.inr ⟨by simp [hrt], Or.inl hx⟩
        · exact Or.inr ⟨by simp [hrt], Or.inr hx⟩

/-- Inversion over the whole add/update pass. -/
theorem foldl_addLayerPrims_layerIds_inv (fls : List FeatureLayer) :
    ∀ (m : MapSurface) (x : String),
      x ∈ (fls.foldl addLayerPrims m).layerIds →
      x ∈ m.layerIds ∨
        ∃ fl ∈ fls, getRenderType (visibleGeoms fl) ≠ none ∧
          (x = "layer-" ++ fl.layerId ∨
           x = "layer-" ++ fl.layerId ++ "-outline") := by
  induction fls with
  | nil => intro m x hx; exact Or.inl hx
  | cons fl rest ih =>
    intro m x hx
    rcases ih (addLayerPrims m fl) x hx with hx1 | ⟨fl2, hfl2, h2⟩
    · rcases addLayerPrims_layerIds_inv m fl x hx1 with hx2 | h2
      · exact Or.inl hx2
      · exact Or.inr ⟨fl, List.mem_cons_self fl rest, h2⟩
    · exact Or.inr ⟨fl2, List.mem_cons_of_mem fl hfl2, h2⟩

/-- The removal sweep keeps any style layer that is in the wanted set. -/
theorem removalPass_keeps_wanted (wanted : List String) (m : MapSurface)
    (x : String) (hx : x ∈ m.layerIds) (hw : x ∈ wanted) :
    x ∈ (removalPass wanted m).layerIds := by
  unfold removalPass
  rw [List.mem_filter]
  refine ⟨hx, ?_⟩
  have hcx : wanted.contains x = true := List.elem_iff.mpr hw
  simp only [hcx, Bool.not_true, Bool.and_false, Bool.not_false]

/-- The removal sweep only removes style layers. -/
theorem removalPass_layerIds_sub (wanted : List String) (m : MapSurface)
    (x : String) (hx : x ∈ (removalPass wanted m).layerIds) :
    x ∈ m.layerIds := by
  unfold removalPass at hx
  exact (List.mem_filter.mp hx).1

/-- Every store layer's primitive id is in the wanted set. -/
theorem mem_wantedLayerIds (fls : List FeatureLayer) (fl : FeatureLayer)
    (hfl : fl ∈ fls) :
    "layer-" ++ fl.layerId ∈ wantedLayerIds fls := by
  unfold wantedLayerIds
  rw [List.mem_flatMap]
  exact ⟨fl, hfl, by simp⟩

/-- The add/update step creates the style layer of a layer whose visible
features have a recognized geometry type. -/
theorem addLayerPrims_creates (m : MapSurface) (fl : FeatureLayer)
    (hrt : getRenderType (visibleGeoms fl) ≠ none) :
    "layer-" ++ fl.layerId ∈ (addLayerPrims m fl).layerIds := by
  unfold addLayerPrims
  rcases hg : getRenderType (visibleGeoms fl) with _ | rt
  · exact absurd hg hrt
  · dsimp only
    by_cases hc : (upsertSource m
        ("source-" ++ fl.layerId)).layerIds.contains
        ("layer-" ++ fl.layerId)
    · rw [if_pos hc]
      exact List.elem_iff.mp hc
    · rw [if_neg hc]
      cases rt <;> dsimp only <;> simp

/-- The add/update pass creates the style layer of every store layer
with a recognized visible geometry type. -/
theorem foldl_addLayerPrims_creates (fls : List FeatureLayer) :
    ∀ (m : MapSurface) (fl : FeatureLayer), fl ∈ fls →
      getRenderType (visibleGeoms fl) ≠ none →
      "layer-" ++ fl.layerId ∈ (fls.foldl addLayerPrims m).layerIds := by
  induction fls with
  | nil => intro m fl hfl; exact absurd hfl (List.not_mem_nil fl)
  | cons fl0 rest ih =>
    intro m fl hfl hrt
    rcases List.mem_cons.mp hfl with rfl | hfl2
    · exact foldl_addLayerPrims_layerIds_mono rest (addLayerPrims m fl)
        ("layer-" ++ fl.layerId) (addLayerPrims_creates m fl hrt)
    · exact ih (addLayerPrims m fl0) fl hfl2 hrt

/-! ## Claim C3: zero visible features and rendering primitives -/

/-- The Store snapshot for the C3 counterexample: one layer "a" whose
single point feature has been toggled invisible. -/
def flInvisible : FeatureLayer := ⟨"a", [⟨"f1", .point, false⟩]⟩

/-- The surface state left by a previous pass in which that feature was
visible: the layer's circle primitive and its source exist. -/
def surfaceWithA : MapSurface := ⟨["layer-a"], ["source-a"]⟩

/-- C3 counterexample: running the reconciliation pass on a snapshot in
which layer "a" has zero visible features does NOT remove its existing
primitive — `layer-a` (and its source) survive the pass, because the
wanted set is built from all store layers regardless of visibility and
the add/update step merely skips the layer.  Toggling all of a Layer's
features invisible therefore does not remove its primitive, refuting the
claim's round-trip. -/
theorem c3_counterexample :
    getRenderType (visibleGeoms flInvisible) = none ∧
    updateLayers [flInvisible] surfaceWithA = surfaceWithA ∧
    "layer-a" ∈ (updateLayers [flInvisible] surfaceWithA).layerIds := by
  refine ⟨rfl, ?_, ?_⟩ <;> decide

/-- C3 (amended): the reconciliation pass never CREATES a primitive for
a Layer whose visible features have no recognized geometry type — if
`layer-{id}` was absent from the surface it remains absent (given no
other store layer's primitive ids collide with it); but an existing
primitive of a Layer still in the Store is RETAINED, not removed, even
when all its features are invisible; and a Layer with a recognized
visible geometry always has its primitive after the pass (so toggling a
feature back visible restores it). -/
theorem c3_zero_visible_amended (fls : List FeatureLayer)
    (m : MapSurface) (fl : FeatureLayer) (hfl : fl ∈ fls)
    (hnone : getRenderType (visibleGeoms fl) = none)
    (hnocol : ∀ fl2 ∈ fls, getRenderType (visibleGeoms fl2) ≠ none →
      "layer-" ++ fl2.layerId ≠ "layer-" ++ fl.layerId ∧
      "layer-" ++ fl2.layerId ++ "-outline" ≠ "layer-" ++ fl.layerId)
    (habsent : "layer-" ++ fl.layerId ∉ m.layerIds) :
    ("layer-" ++ fl.layerId ∉ (updateLayers fls m).layerIds) ∧
    (∀ fl3 ∈ fls, ∀ m2 : MapSurface,
      "layer-" ++ fl3.layerId ∈ m2.layerIds →
      "layer-" ++ fl3.layerId ∈ (updateLayers fls m2).layerIds) ∧
    (∀ fl3 ∈ fls, getRenderType (visibleGeoms fl3) ≠ none →
      ∀ m2 : MapSurface,
        "layer-" ++ fl3.layerId ∈ (updateLayers fls m2).layerIds) := by
  refine ⟨?_, ?_, ?_⟩
  · intro hmem
    rcases foldl_addLayerPrims_layerIds_inv fls _ _ hmem with
      h | ⟨fl2, hfl2, hrt2, heq⟩
    · exact habsent (removalPass_layerIds_sub _ m _ h)
    · rcases heq with heq | heq
      · exact (hnocol fl2 hfl2 hrt2).1 heq.symm
      · exact (hnocol fl2 hfl2 hrt2).2 heq.symm
  · intro fl3 hfl3 m2 hmem
    exact foldl_addLayerPrims_layerIds_mono fls _ _
      (removalPass_keeps_wanted (wantedLayerIds fls) m2 _ hmem
        (mem_wantedLayerIds fls fl3 hfl3))
  · intro fl3 hfl3 hrt3 m2
    exact foldl_addLayerPrims_creates fls _ fl3 hfl3 hrt3

/-- A visible one-point layer "b", used in the C3 witness snapshot. -/
def flVisible : FeatureLayer := ⟨"b", [⟨"f2", .point, true⟩]⟩

/-- Witness for C3 (amended) at a concrete two-layer snapshot over an
empty surface: the invisible layer "a" gets no primitive, retention
holds for both, and the visible layer "b" gets its primitive. -/
theorem c3_zero_visible_amended_witness :
    ("layer-" ++ flInvisible.layerId ∉
      (updateLayers [flInvisible, flVisible] ⟨[], []⟩).layerIds) ∧
    (∀ fl3 ∈ [flInvisible, flVisible], ∀ m2 : MapSurface,
      "layer-" ++ fl3.layerId ∈ m2.layerIds →
      "layer-" ++ fl3.layerId ∈
        (updateLayers [flInvisible, flVisible] m2).layerIds) ∧
    (∀ fl3 ∈ [flInvisible, flVisible],
      getRenderType (visibleGeoms fl3) ≠ none →
      ∀ m2 : MapSurface,
        "layer-" ++ fl3.layerId ∈
          (updateLayers [flInvisible, flVisible] m2).layerIds) :=
  c3_zero_visible_amended [flInvisible, flVisible] ⟨[], []⟩ flInvisible
    (by decide) (by decide) (by decide) (by decide)

/-! ## Feature-selection click handler (`mapComponent.tsx`, `handleClick`) -/

/-- A rendered feature returned by `queryRenderedFeatures`, carrying the
`__feature_id` / `__layer_id` properties that `toFeatureCollection`
injects (modelled nullable, as `properties?.` access is). -/
structure RenderedHit where
  __feature_id : Option String
  __layer_id : Option String
deriving Repr, DecidableEq

/-- The selection slice of the Store that the click handler mutates. -/
structure SelState where
  selectedFeatures : List StoreFeature
  selectedFeature : Option StoreFeature
  selectedLayer : Option String
deriving Repr, DecidableEq

/-- `handleClick` (`mapComponent.tsx`): on a map click, (1) if a
georeferencing session is active and a GCP is armed, write the click's
lon/lat into that GCP and stop; (2) otherwise query the rendered
features under the click among layers with at least one visible feature
(`hits` is that query's result, supplied by the rendering surface); an
empty query-layer list or an empty hit list returns with NO state
change; (3) otherwise resolve the top hit's layer and feature: set the
selected layer, then — shift held — toggle the clicked feature's
membership in the multi-selection, or — no shift — replace the selection
with the single clicked feature. -/
def handleClick (isGeo : Bool) (selectedGcp : Option Nat)
    (gcps : List GCP) (fls : List FeatureLayer)
    (hits : List RenderedHit) (shiftKey : Bool) (lng lat : Coord)
    (st : SelState) : List GCP × SelState :=
  if isGeo && selectedGcp.isSome then
    match selectedGcp with
    | some gid => (setMapPoint gcps gid lng lat, st)
    | none => (gcps, st)
  else
    let queryLayers := (fls.filter (fun fl =>
      fl.features.any (·.is_visible))).map (fun fl => "layer-" ++ fl.layerId)
    if queryLayers.isEmpty then (gcps, st)
    else
      match hits with
      | [] => (gcps, st)
      | top :: _ =>
        let clickedLayer? : Option FeatureLayer :=
          match top.__layer_id with
          | some lidv => fls.find? (fun fl => fl.layerId == lidv)
          | none => none
        match clickedLayer?, top.__feature_id with
        | some clickedLayer, some fid =>
          if !isGeo then
            let st1 := { st with selectedLayer := some clickedLayer.layerId }
            match clickedLayer.features.find? (fun f => f.id == fid) with
            | none => (gcps, st1)
            | some clickedFeature =>
              if shiftKey then
                let exists1 := st1.selectedFeatures.any
                  (fun f => f.id == clickedFeature.id)
                let newSel :=
                  if exists1 then
                    st1.selectedFeatures.filter
                      (fun f => f.id != clickedFeature.id)
                  else st1.selectedFeatures ++ [clickedFeature]
                (gcps, { st1 with selectedFeatures := newSel })
              else
                (gcps,
                 { st1 with selectedFeatures := [clickedFeature], selectedFeature := some clickedFeature })
          else (gcps, st)
        | _, _ => (gcps, st)

/-- Feature "A" of the scenario layer. -/
def featA : StoreFeature := ⟨"A", .point, true⟩
/-- Feature "B" of the scenario layer. -/
def featB : StoreFeature := ⟨"B", .point, true⟩
/-- Feature "C" of the scenario layer. -/
def featC : StoreFeature := ⟨"C", .point, true⟩
/-- The scenario layer holding features A, B, C, all visible. -/
def flABC : FeatureLayer := ⟨"la", [featA, featB, featC]⟩

/-! ## Claim C6: click selection semantics -/

/-- C6 counterexample: with feature A selected, a plain click that hits
no visible feature (`queryRenderedFeatures` returns `[]`) leaves the
selection equal to `{A}` — the handler returns before touching the
selection — whereas the claim requires the selection to be cleared. -/
theorem c6_counterexample :
    (handleClick false none EMPTY_GCPS [flABC] [] false 0 0
      ⟨[featA], some featA, some "la"⟩).2.selectedFeatures = [featA] ∧
    [featA] ≠ ([] : List StoreFeature) := by
  exact ⟨by decide, by decide⟩

/-- C6 (amended): for a click not captured by an armed GCP workflow that
resolves to a clicked feature: (i) with shift held the clicked feature's
membership in the multi-selection is toggled and (ii) every other
feature's membership is unchanged; (iii) without shift the selection is
replaced by the single clicked feature; (iv) a click that hits nothing
leaves the selection UNCHANGED (not cleared); and (v) the spec scenario:
from selection `{A}`, shift-click on B yields `{A, B}`, and a plain
click on C then collapses the selection to `{C}`. -/
theorem c6_click_selection_amended
    (selGcp : Option Nat) (gcps : List GCP) (fls : List FeatureLayer)
    (top : RenderedHit) (rest : List RenderedHit) (shiftKey : Bool)
    (lng lat : Coord) (st : SelState)
    (lidv : String) (clickedLayer : FeatureLayer) (fid : String)
    (clickedFeature : StoreFeature)
    (hvis : (fls.filter fun fl => fl.features.any (·.is_visible)) ≠ [])
    (hlid : top.__layer_id = some lidv)
    (hfind : fls.find? (fun fl => fl.layerId == lidv) = some clickedLayer)
    (hfid : top.__feature_id = some fid)
    (hfeat : clickedLayer.features.find? (fun f => f.id == fid) =
      some clickedFeature) :
    (((handleClick false selGcp gcps fls (top :: rest) true lng lat
        st).2.selectedFeatures.any fun f => f.id == clickedFeature.id) =
      !(st.selectedFeatures.any fun f => f.id == clickedFeature.id)) ∧
    (∀ g : StoreFeature, g.id ≠ clickedFeature.id →
      (g ∈ (handleClick false selGcp gcps fls (top :: rest) true lng lat
        st).2.selectedFeatures ↔ g ∈ st.selectedFeatures)) ∧
    ((handleClick false selGcp gcps fls (top :: rest) false lng lat
        st).2 =
      { st with selectedFeatures := [clickedFeature], selectedFeature := some clickedFeature, selectedLayer := some clickedLayer.layerId }) ∧
    (handleClick false selGcp gcps fls [] shiftKey lng lat st =
      (gcps, st)) ∧
    ((handleClick false none EMPTY_GCPS [flABC]
        [⟨some "B", some "la"⟩] true 0 0
        ⟨[featA], some featA, some "la"⟩).2.selectedFeatures =
      [featA, featB]) ∧
    ((handleClick false none EMPTY_GCPS [flABC]
        [⟨some "C", some "la"⟩] false 0 0
        ⟨[featA, featB], some featA, some "la"⟩).2.selectedFeatures =
      [featC]) := by
  have hq : ((fls.filter fun fl =>
      fl.features.any (·.is_visible)).map
        fun fl => "layer-" ++ fl.layerId).isEmpty = false := by
    rw [List.isEmpty_eq_false]
    simpa using hvis
  refine ⟨?_, ?_, ?_, ?_, by decide, by decide⟩
  · simp only [handleClick, Bool.false_and, Bool.not_false, hq, hlid,
      hfind, hfid, hfeat]
    simp only [Bool.false_eq_true, if_false, if_true]
    by_cases hmem : st.selectedFeatures.any fun f =>
        f.id == clickedFeature.id
    · simp only [hmem, if_true, Bool.not_true]
      rw [List.any_eq_false]
      intro f hf
      have h2 := (List.mem_filter.mp hf).2
      simp only [bne_iff_ne, ne_eq] at h2
      simpa using h2
    · simp only [hmem, if_false, Bool.not_false]
      simp [List.any_append]
  · intro g hg
    simp only [handleClick, Bool.false_and, Bool.not_false, hq, hlid,
      hfind, hfid, hfeat]
    simp only [Bool.false_eq_true, if_false, if_true]
    by_cases hmem : st.selectedFeatures.any fun f =>
        f.id == clickedFeature.id
    · simp only [hmem, if_true]
      simp [List.mem_filter, bne_iff_ne, hg]
    · rw [Bool.not_eq_true] at hmem
      simp only [hmem, Bool.false_eq_true, if_false, List.mem_append,
        List.mem_singleton]
      constructor
      · rintro (h | rfl)
        · exact h
        · exact absurd rfl hg
      · exact fun h => Or.inl h
  · simp [handleClick, hq, hlid, hfind, hfid, hfeat]
  · simp [handleClick, hq]

/-- Witness for C6 (amended): a shift-click resolving to feature B of
the scenario layer, from the selection `{A}`. -/
theorem c6_click_selection_amended_witness :
    (((handleClick false none EMPTY_GCPS [flABC]
        [⟨some "B", some "la"⟩] true 0 0
        ⟨[featA], some featA, some "la"⟩).2.selectedFeatures.any
        fun f => f.id == featB.id) =
      !(([featA] : List StoreFeature).any fun f => f.id == featB.id)) ∧
    (∀ g : StoreFeature, g.id ≠ featB.id →
      (g ∈ (handleClick false none EMPTY_GCPS [flABC]
          [⟨some "B", some "la"⟩] true 0 0
          ⟨[featA], some featA, some "la"⟩).2.selectedFeatures ↔
        g ∈ ([featA] : List StoreFeature))) ∧
    ((handleClick false none EMPTY_GCPS [flABC]
        [⟨some "B", some "la"⟩] false 0 0
        ⟨[featA], some featA, some "la"⟩).2 =
      { selectedFeatures := [featB], selectedFeature := some featB,
        selectedLayer := some flABC.layerId }) ∧
    (handleClick false none EMPTY_GCPS [flABC] [] true 0 0
        ⟨[featA], some featA, some "la"⟩ =
      (EMPTY_GCPS, ⟨[featA], some featA, some "la"⟩)) ∧
    ((handleClick false none EMPTY_GCPS [flABC]
        [⟨some "B", some "la"⟩] true 0 0
        ⟨[featA], some featA, some "la"⟩).2.selectedFeatures =
      [featA, featB]) ∧
    ((handleClick false none EMPTY_GCPS [flABC]
        [⟨some "C", some "la"⟩] false 0 0
        ⟨[featA, featB], some featA, some "la"⟩).2.selectedFeatures =
      [featC]) :=
  c6_click_selection_amended none EMPTY_GCPS [flABC]
    ⟨some "B", some "la"⟩ [] true 0 0
    ⟨[featA], some featA, some "la"⟩ "la" flABC "B" featB
    (by decide) (by decide) (by decide) (by decide) (by decide)

end GeoMvp
